import Mathlib

/-!
Verification of the Phoenix2 emulation-platform pipeline
(`src/backend/emulation_platform.py`, `src/backend/docker_emulator.py`).

The Python workers are shallowly embedded as pure Lean functions:
dictionaries become association lists in insertion order, Python strings
become `String`, exact decimal rounding of `round(x, 1)` is modelled on `ℚ`
with round-half-to-even, and the effectful container backend is modelled by
an explicit behaviour oracle.  Wall-clock durations, timestamps and the
freshly drawn report ids are passed in as explicit environment inputs.
-/

namespace Phoenix2

/-- ASCII lower-casing of one character, as Python `str.lower` acts on the
ASCII identifiers and sentences these documents contain. -/
def pyLowerChar (c : Char) : Char :=
  if 'A' ≤ c ∧ c ≤ 'Z' then Char.ofNat (c.toNat + 32) else c

/-- Python `s.lower()`. -/
def pyLower (s : String) : String :=
  ⟨s.data.map pyLowerChar⟩

/-- Contiguous-sublist test on character lists. -/
def subListOf (needle : List Char) : List Char → Bool
  | [] => needle.isEmpty
  | c :: rest => needle.isPrefixOf (c :: rest) || subListOf needle rest

/-- Python `needle in hay` for strings: substring containment. -/
def containsSub (hay needle : String) : Bool :=
  subListOf needle.data hay.data

/-- `TestSeverity` enum of `emulation_platform.py`. -/
inductive TestSeverity where
  | CRITICAL
  | HIGH
  | MEDIUM
  | LOW
deriving DecidableEq

/-- `TestCategory` enum of `emulation_platform.py`. -/
inductive TestCategory where
  | BOOT
  | NETWORK
  | WIFI
  | VOICE
  | USB
  | SECURITY
  | MANAGEMENT
  | PERFORMANCE
  | STRESS
  | BOUNDARY
deriving DecidableEq

/-- `ParsedCapability` dataclass (the `parameters`, `requirements` and
`test_criteria` mapping fields are untyped `Dict[str, Any]` payloads no
pipeline decision reads; they are not modelled). -/
structure ParsedCapability where
  id : String
  name : String
  category : String
  description : String
  testable : Bool := true
deriving DecidableEq

/-- `ParsedRequirement` dataclass. -/
structure ParsedRequirement where
  id : String
  title : String
  description : String
  category : String
  severity : TestSeverity
  acceptance_criteria : List String := []
  linked_capabilities : List String := []
deriving DecidableEq

/-- `GeneratedTestCase` dataclass; a step dict
`(action ..., expected ...)` becomes a pair of strings. -/
structure GeneratedTestCase where
  id : String
  name : String
  category : TestCategory
  severity : TestSeverity
  description : String
  preconditions : List String
  steps : List (String × String)
  expected_results : List String
  timeout_sec : Nat := 60
  linked_requirements : List String := []
  linked_capabilities : List String := []
deriving DecidableEq

/-- `EmulatorConfig` dataclass (creation timestamp and the source-document
paths are opaque strings supplied by the caller). -/
structure EmulatorConfig where
  emulator_id : String
  board_name : String
  soc_id : String
  vendor : String
  architecture : String
  cpu_type : String
  cpu_cores : Nat
  memory_mb : Nat
  flash_mb : Nat
  capabilities : List ParsedCapability
  requirements : List ParsedRequirement
deriving DecidableEq

/-- `TestResult` dataclass, restricted to the fields the report synthesizer
reads: `category` and `status` are plain strings in the source, and the
duration is an exact rational stand-in for the Python float. -/
structure TestResult where
  test_id : String
  test_name : String
  category : String
  status : String
  duration_sec : ℚ
deriving DecidableEq

/-! ### Exact decimal rounding

`round(x, 1)` in Python rounds to one decimal with ties going to the even
digit; on exact rationals this is round-half-to-even of `10 * x`. -/

/-- Round-half-to-even of a rational to an integer. -/
def roundHalfEven (x : ℚ) : ℤ :=
  let f : ℤ := ⌊x⌋
  let r : ℚ := x - f
  if r < 1 / 2 then f
  else if 1 / 2 < r then f + 1
  else if f % 2 = 0 then f else f + 1

/-- Python `round(x, 1)` on exact rationals. -/
def pyRound1 (x : ℚ) : ℚ :=
  (roundHalfEven (x * 10) : ℚ) / 10

/-! ### Report synthesis (`ReportGeneratorWorker.generate_report`) -/

/-- The `summary` mapping built at the top of `generate_report`. -/
structure ReportSummary where
  total : Nat
  passed : Nat
  failed : Nat
  errors : Nat
  skipped : Nat
  pass_rate : ℚ
deriving DecidableEq

/-- Status counting and pass-rate computation of `generate_report`:
`pass_rate = round((passed / total * 100) if total > 0 else 0, 1)`. -/
def summarize (test_results : List TestResult) : ReportSummary :=
  let total := test_results.length
  let passed := test_results.countP (fun r => r.status == "passed")
  let failed := test_results.countP (fun r => r.status == "failed")
  let errors := test_results.countP (fun r => r.status == "error")
  let skipped := test_results.countP (fun r => r.status == "skipped")
  { total := total
    passed := passed
    failed := failed
    errors := errors
    skipped := skipped
    pass_rate := pyRound1 (if 0 < total then (passed : ℚ) / (total : ℚ) * 100 else 0) }

/-- The verdict chain of `generate_report`:
`PASS` when `pass_rate >= 95`, else `CONDITIONAL` when `pass_rate >= 80`,
else `FAIL`. -/
def verdictOf (pass_rate : ℚ) : String :=
  if pass_rate ≥ 95 then "PASS"
  else if pass_rate ≥ 80 then "CONDITIONAL"
  else "FAIL"

/-- One value of the per-category dict built by
`_calculate_feature_coverage` before the coverage field is added. -/
structure CatCounts where
  total : Nat
  passed : Nat
  failed : Nat
deriving DecidableEq

/-- The increment applied to a category's counters by one outcome of the
given status: `total` always, `passed` when the status is `passed`,
`failed` otherwise. -/
def bumpCounts (c : CatCounts) (status : String) : CatCounts :=
  { total := c.total + 1
    passed := c.passed + (if status == "passed" then 1 else 0)
    failed := c.failed + (if status == "passed" then 0 else 1) }

/-- Apply the counter increment to the entry holding the outcome's
category, leaving other entries alone. -/
def bumpEntry (cat status : String) (p : String × CatCounts) : String × CatCounts :=
  if p.1 == cat then (p.1, bumpCounts p.2 status) else p

/-- One iteration of the first loop of `_calculate_feature_coverage`:
create the category entry when absent, then bump `total` and one of
`passed` / `failed`. -/
def updateCats (m : List (String × CatCounts)) (r : TestResult) : List (String × CatCounts) :=
  (if m.any (fun p => p.1 == r.category) then m
   else m ++ [(r.category, ⟨0, 0, 0⟩)]).map (bumpEntry r.category r.status)

/-- The per-category coverage value added by the second loop of
`_calculate_feature_coverage`. -/
def coverageOf (c : CatCounts) : ℚ :=
  if 0 < c.total then pyRound1 ((c.passed : ℚ) / (c.total : ℚ) * 100) else 0

/-- Return value of `_calculate_feature_coverage`. -/
structure FeatureCoverage where
  by_category : List (String × CatCounts × ℚ)
  total_categories : Nat
  fully_covered : Nat
deriving DecidableEq

/-- `ReportGeneratorWorker._calculate_feature_coverage`. -/
def calculate_feature_coverage (test_results : List TestResult) : FeatureCoverage :=
  let cats := test_results.foldl updateCats []
  let byCat := cats.map (fun p => (p.1, p.2, coverageOf p.2))
  { by_category := byCat
    total_categories := cats.length
    fully_covered := (byCat.filter (fun q => q.2.2 == 100)).length }

/-- Nondeterministic inputs of `generate_report`: the freshly drawn
`report_id` and the wall-clock timestamp. -/
structure ReportEnv where
  report_id : String
  timestamp : String
deriving DecidableEq

/-- `EmulationReport`, restricted to the fields the claims under
verification read (boot analysis and recommendations are untouched by any
claim). -/
structure EmulationReport where
  report_id : String
  emulator_id : String
  board_name : String
  firmware_info : String
  timestamp : String
  summary : ReportSummary
  verdict : String
  feature_coverage : FeatureCoverage
deriving DecidableEq

/-- `ReportGeneratorWorker.generate_report`: summary counts, verdict and
feature coverage are computed from the outcome list alone; the id and
timestamp come from the environment. -/
def generate_report (env : ReportEnv) (emulator_id board_name firmware_info : String)
    (test_results : List TestResult) : EmulationReport :=
  let summary := summarize test_results
  { report_id := env.report_id
    emulator_id := emulator_id
    board_name := board_name
    firmware_info := firmware_info
    timestamp := env.timestamp
    summary := summary
    verdict := verdictOf summary.pass_rate
    feature_coverage := calculate_feature_coverage test_results }

/-! ### Document merging (`EmulatorGeneratorWorker._merge_parsed_docs`) -/

/-- Python truthiness plus the placeholder test of `_merge_parsed_docs`:
`value and value != 'unknown'` for a string-valued hardware-spec field. -/
def isConcreteVal (v : String) : Bool :=
  v ≠ "" && v ≠ "unknown"

/-- Assignment `d[k] = v` on a Python dict modelled as an association list
in insertion order: replace the existing entry in place, else append. -/
def dictSet (m : List (String × String)) (k v : String) : List (String × String) :=
  if m.any (fun p => p.1 == k) then
    m.map (fun p => if p.1 == k then (k, v) else p)
  else m ++ [(k, v)]

/-- One parsed document as `_merge_parsed_docs` consumes it; the
hardware-spec mapping is its dict items in insertion order (values that are
not strings in the source are opaque to the merge test and modelled as
strings). -/
structure ParsedDoc where
  capabilities : List ParsedCapability
  requirements : List ParsedRequirement
  hardware_spec : List (String × String)
deriving DecidableEq

/-- One hardware-spec item of the inner loop of `_merge_parsed_docs`:
written into the merged dict only when the value is truthy and not the
`'unknown'` placeholder. -/
def applyHWItem (m : List (String × String)) (kv : String × String) : List (String × String) :=
  if isConcreteVal kv.2 then dictSet m kv.1 kv.2 else m

/-- One iteration of the document loop of `_merge_parsed_docs`: extend the
capability and requirement lists and fold the hardware-spec items in. -/
def mergeDocStep (merged doc : ParsedDoc) : ParsedDoc :=
  { capabilities := merged.capabilities ++ doc.capabilities
    requirements := merged.requirements ++ doc.requirements
    hardware_spec := doc.hardware_spec.foldl applyHWItem merged.hardware_spec }

/-- `EmulatorGeneratorWorker._merge_parsed_docs`. -/
def merge_parsed_docs (docs : List ParsedDoc) : ParsedDoc :=
  docs.foldl mergeDocStep ⟨[], [], []⟩

/-- The latest hardware-spec item for `key` whose value is concrete
(truthy and not `'unknown'`), across the items of `kvs` left to right. -/
def lastConcreteIn (kvs : List (String × String)) (key : String) : Option String :=
  (kvs.reverse.find? (fun kv => kv.1 == key && isConcreteVal kv.2)).map (fun kv => kv.2)

/-- The latest concrete value for a hardware-spec field across a document
list, in document-then-item order. -/
def lastConcreteValue (docs : List ParsedDoc) (key : String) : Option String :=
  lastConcreteIn ((docs.map (fun d => d.hardware_spec)).flatten) key

/-- Modelled from the spec's words, for comparison with the source
behaviour: the EARLIEST concrete value for a hardware-spec field across the
documents (the value the spec says survives the merge). -/
def firstConcreteValue (docs : List ParsedDoc) (key : String) : Option String :=
  (((docs.map (fun d => d.hardware_spec)).flatten).find?
    (fun kv => kv.1 == key && isConcreteVal kv.2)).map (fun kv => kv.2)

/-! ### Boot test generation (`BootTestGeneratorWorker.generate_boot_tests`) -/

/-- The six fixed boot test cases, in emission order. -/
def bootTestSet (config : EmulatorConfig) : List GeneratedTestCase :=
  [ { id := "BOOT_COLD_001"
      name := "Cold Boot Sequence Test"
      category := TestCategory.BOOT
      severity := TestSeverity.CRITICAL
      description := "Verify cold boot sequence for " ++ config.board_name
      preconditions := ["Device is powered off", "Firmware is loaded"]
      steps :=
        [ ("Power on device", "Boot sequence starts")
        , ("Monitor bootloader stage", "Bootloader initializes within 5s")
        , ("Monitor kernel stage", "Kernel loads within 30s")
        , ("Monitor rootfs mount", "Root filesystem mounts")
        , ("Monitor services", "All critical services start") ]
      expected_results :=
        [ "Boot completes within 120 seconds"
        , "All boot stages complete successfully"
        , "No error messages in boot log" ]
      timeout_sec := 180 }
  , { id := "BOOT_WARM_001"
      name := "Warm Boot (Reboot) Test"
      category := TestCategory.BOOT
      severity := TestSeverity.CRITICAL
      description := "Verify warm boot/reboot sequence"
      preconditions := ["Device is running", "System is stable"]
      steps :=
        [ ("Issue reboot command", "Reboot initiated")
        , ("Monitor shutdown sequence", "Services stop gracefully")
        , ("Monitor boot sequence", "System reboots") ]
      expected_results :=
        [ "Reboot completes within 60 seconds"
        , "All services restart correctly"
        , "System state preserved where applicable" ]
      timeout_sec := 90 }
  , { id := "BOOT_TIME_001"
      name := "Boot Timing Verification"
      category := TestCategory.BOOT
      severity := TestSeverity.HIGH
      description := "Verify boot timing meets requirements"
      preconditions := ["Device is powered off"]
      steps :=
        [ ("Start timing at power-on", "Timer starts")
        , ("Record bootloader time", "Bootloader completes")
        , ("Record kernel time", "Kernel ready")
        , ("Record service time", "Services ready")
        , ("Record total boot time", "System fully operational") ]
      expected_results :=
        [ "Bootloader stage < 10 seconds"
        , "Kernel initialization < 30 seconds"
        , "Total boot time < 120 seconds" ]
      timeout_sec := 180 }
  , { id := "BOOT_WDT_001"
      name := "Watchdog Timer Test"
      category := TestCategory.BOOT
      severity := TestSeverity.HIGH
      description := "Verify watchdog timer functionality"
      preconditions := ["Device is running", "Watchdog is enabled"]
      steps :=
        [ ("Verify watchdog is active", "Watchdog daemon running")
        , ("Simulate system hang", "Watchdog detects hang")
        , ("Wait for watchdog timeout", "System reboots automatically") ]
      expected_results :=
        [ "Watchdog triggers reboot on hang"
        , "System recovers after watchdog reset" ]
      timeout_sec := 120 }
  , { id := "BOOT_INTEGRITY_001"
      name := "Bootloader Integrity Verification"
      category := TestCategory.BOOT
      severity := TestSeverity.CRITICAL
      description := "Verify bootloader integrity and secure boot"
      preconditions := ["Fresh boot"]
      steps :=
        [ ("Check bootloader signature", "Signature valid")
        , ("Verify boot chain", "Chain of trust intact")
        , ("Check secure boot status", "Secure boot enabled") ]
      expected_results :=
        [ "Bootloader signature verification passes"
        , "Boot chain integrity verified" ]
      timeout_sec := 60 }
  , { id := "BOOT_RECOVERY_001"
      name := "Boot Recovery Mode Test"
      category := TestCategory.BOOT
      severity := TestSeverity.MEDIUM
      description := "Verify boot recovery mode functionality"
      preconditions := ["Recovery mode accessible"]
      steps :=
        [ ("Enter recovery mode", "Recovery mode activates")
        , ("Verify recovery options", "Options available")
        , ("Exit recovery mode", "Normal boot resumes") ]
      expected_results :=
        [ "Recovery mode accessible"
        , "Factory reset option available"
        , "Firmware update option available" ]
      timeout_sec := 180 } ]

/-- The requirement filter of `generate_boot_tests`: title or description
mentions `boot` (lower-cased). -/
def mentionsBoot (r : ParsedRequirement) : Bool :=
  containsSub (pyLower r.title) "boot" || containsSub (pyLower r.description) "boot"

/-- `BootTestGeneratorWorker.generate_boot_tests`; the Python
`requirements` parameter defaults to `None`, and the linking branch runs
only when the argument is truthy (neither `None` nor the empty list). -/
def generate_boot_tests (config : EmulatorConfig)
    (requirements : Option (List ParsedRequirement) := none) : List GeneratedTestCase :=
  let tests := bootTestSet config
  match requirements with
  | none => tests
  | some reqs =>
    if reqs.isEmpty then tests
    else
      let boot_reqs := reqs.filter mentionsBoot
      tests.map (fun t => { t with linked_requirements := (boot_reqs.take 2).map (fun r => r.id) })

/-! ### Feature test generation (`FeatureTestGeneratorWorker`) -/

/-- `FeatureTestGeneratorWorker._map_category`. -/
def map_category (category : String) : TestCategory :=
  if pyLower category == "network" then TestCategory.NETWORK
  else if pyLower category == "networking" then TestCategory.NETWORK
  else if pyLower category == "wifi" then TestCategory.WIFI
  else if pyLower category == "wireless" then TestCategory.WIFI
  else if pyLower category == "voice" then TestCategory.VOICE
  else if pyLower category == "voip" then TestCategory.VOICE
  else if pyLower category == "usb" then TestCategory.USB
  else if pyLower category == "security" then TestCategory.SECURITY
  else if pyLower category == "management" then TestCategory.MANAGEMENT
  else if pyLower category == "boot" then TestCategory.BOOT
  else if pyLower category == "performance" then TestCategory.PERFORMANCE
  else if pyLower category == "stress" then TestCategory.STRESS
  else if pyLower category == "boundary" then TestCategory.BOUNDARY
  else TestCategory.PERFORMANCE

/-- The relevance filter of `_generate_capability_tests`: the requirement
description contains the capability name (both lower-cased), or the
requirement's `linked_capabilities` cites the capability id. -/
def relevantTo (cap : ParsedCapability) (r : ParsedRequirement) : Bool :=
  containsSub (pyLower r.description) (pyLower cap.name) || r.linked_capabilities.contains cap.id

/-- `FeatureTestGeneratorWorker._generate_capability_tests`: one basic
functionality test per capability, then the linking loop over the singleton
list. -/
def generate_capability_tests (cap : ParsedCapability)
    (requirements : List ParsedRequirement) : List GeneratedTestCase :=
  let relevant_reqs := requirements.filter (relevantTo cap)
  [ { id := cap.id ++ "_FUNC_001"
      name := cap.name ++ " - Basic Functionality"
      category := map_category cap.category
      severity := TestSeverity.HIGH
      description := "Verify basic functionality of " ++ cap.name
      preconditions := [cap.name ++ " is enabled", "System is stable"]
      steps :=
        [ ("Initialize " ++ cap.name, "Initialization successful")
        , ("Verify " ++ cap.name ++ " status", "Status is operational")
        , ("Perform basic operation", "Operation completes") ]
      expected_results :=
        [ cap.name ++ " initializes correctly"
        , cap.name ++ " performs expected function" ]
      timeout_sec := 60
      linked_capabilities := [cap.id]
      linked_requirements := (relevant_reqs.take 3).map (fun r => r.id) } ]

/-- `FeatureTestGeneratorWorker._generate_requirement_test`. -/
def generate_requirement_test (req : ParsedRequirement) : GeneratedTestCase :=
  { id := "REQ_" ++ req.id ++ "_TEST"
    name := "Requirement: " ++ req.title
    category := map_category req.category
    severity := req.severity
    description := "Verify requirement: " ++ req.description
    preconditions := ["System is operational"]
    steps :=
      ("Execute test scenario", "Requirement met")
        :: (req.acceptance_criteria.take 3).map (fun crit => ("Verify: " ++ crit, "Pass"))
    expected_results :=
      if req.acceptance_criteria.isEmpty then ["Requirement satisfied"]
      else req.acceptance_criteria
    timeout_sec := 120
    linked_requirements := [req.id] }

/-- The id scheme of requirement-level test cases. -/
def reqTestIdOf (rid : String) : String :=
  "REQ_" ++ rid ++ "_TEST"

/-- One iteration of the requirement loop of `generate_feature_tests`:
append a requirement-level test unless some already generated test links
the requirement's id. -/
def addRequirementTest (tests : List GeneratedTestCase) (req : ParsedRequirement) :
    List GeneratedTestCase :=
  if tests.any (fun t => t.linked_requirements.contains req.id) then tests
  else tests ++ [generate_requirement_test req]

/-- The capability loop of `generate_feature_tests`. -/
def capabilityTestsAll (capabilities : List ParsedCapability)
    (requirements : List ParsedRequirement) : List GeneratedTestCase :=
  (capabilities.map (fun cap => generate_capability_tests cap requirements)).flatten

/-- Body of `FeatureTestGeneratorWorker.generate_feature_tests` once the
capability and requirement lists are fixed. -/
def featureTestsFrom (capabilities : List ParsedCapability)
    (requirements : List ParsedRequirement) : List GeneratedTestCase :=
  requirements.foldl addRequirementTest (capabilityTestsAll capabilities requirements)

/-- `FeatureTestGeneratorWorker.generate_feature_tests`: the optional
capability and requirement arguments default to the config's own lists. -/
def generate_feature_tests (config : EmulatorConfig)
    (capabilities : Option (List ParsedCapability) := none)
    (requirements : Option (List ParsedRequirement) := none) : List GeneratedTestCase :=
  featureTestsFrom (capabilities.getD config.capabilities) (requirements.getD config.requirements)

/-! ### Pipeline test generation (`EmulationPlatformOrchestrator.run_complete_workflow`)

The orchestrator calls `generate_boot_tests(emulator_config)` and
`generate_feature_tests(emulator_config)` with no further arguments. -/

/-- The boot tests the complete workflow generates for a config. -/
def workflowBootTests (config : EmulatorConfig) : List GeneratedTestCase :=
  generate_boot_tests config

/-- The feature tests the complete workflow generates for a config. -/
def workflowFeatureTests (config : EmulatorConfig) : List GeneratedTestCase :=
  generate_feature_tests config

/-! ### Real-mode container execution
(`ContainerTestExecutorWorker` of `docker_emulator.py`)

`_execute_in_container` shells out twice per test (`docker cp`, then
`docker exec`); the observable behaviour of those two calls is modelled by
an oracle mapping the test to either a completed run (exit code plus
combined output) or a raised exception carrying a message.  Wall-clock
durations are not modelled. -/

/-- Outcome of the `docker cp` / `docker exec` pair for one test: either
the script ran to completion, or some transfer/launch step raised. -/
inductive ContainerRun where
  | completes (exit_code : Int) (stdout stderr : String)
  | raises (msg : String)
deriving DecidableEq

/-- Evidence dict attached to a `ContainerTestResult`. -/
inductive ContainerEvidence where
  | run (container_id firmware_checksum16 executed_at : String)
  | error (msg : String)
deriving DecidableEq

/-- `ContainerTestResult` dataclass (duration elided). -/
structure ContainerTestResult where
  test_id : String
  test_name : String
  status : String
  output : String
  exit_code : Int
  evidence : ContainerEvidence
deriving DecidableEq

/-- `ContainerTestExecutorWorker._execute_in_container`: exit code 0 maps
to `passed`, any other exit code to `failed`, and a caught exception to a
single `error` outcome whose output and evidence hold the exception
message. -/
def execute_in_container (behavior : GeneratedTestCase → ContainerRun)
    (container_id firmware_checksum executed_at : String)
    (test : GeneratedTestCase) : ContainerTestResult :=
  match behavior test with
  | ContainerRun.completes code out errout =>
    { test_id := test.id
      test_name := test.name
      status := if code = 0 then "passed" else "failed"
      output := out ++ errout
      exit_code := code
      evidence := ContainerEvidence.run container_id (firmware_checksum.take 16) executed_at }
  | ContainerRun.raises msg =>
    { test_id := test.id
      test_name := test.name
      status := "error"
      output := msg
      exit_code := -1
      evidence := ContainerEvidence.error msg }

/-- The test loop of `ContainerTestExecutorWorker.execute_tests` with
Docker available: every submitted test is executed in order and its result
appended, whether or not earlier tests failed or raised. -/
def container_execute_tests (behavior : GeneratedTestCase → ContainerRun)
    (container_id firmware_checksum executed_at : String)
    (tests : List GeneratedTestCase) : List ContainerTestResult :=
  tests.map (execute_in_container behavior container_id firmware_checksum executed_at)

/-! ### Concrete inputs used by counterexamples and witnesses -/

/-- Two parsed documents assigning distinct concrete values to the same
hardware-spec field. -/
def mergeCounterDocs : List ParsedDoc :=
  [ ⟨[], [], [("cpu_type", "cortex-a7")]⟩
  , ⟨[], [], [("cpu_type", "cortex-a53")]⟩ ]

/-- A config with no capabilities and no requirements. -/
def emptyConfig : EmulatorConfig :=
  { emulator_id := "EMU_TEST0001"
    board_name := "TestBoard"
    soc_id := "unknown"
    vendor := "unknown"
    architecture := "armv7"
    cpu_type := "unknown"
    cpu_cores := 4
    memory_mb := 1024
    flash_mb := 256
    capabilities := []
    requirements := [] }

/-- A requirement whose title and description both mention boot. -/
def bootTimeReq : ParsedRequirement :=
  { id := "REQ_BOOT_1"
    title := "Boot time"
    description := "The system must boot within 10 seconds"
    category := "boot"
    severity := TestSeverity.CRITICAL }

/-- A config carrying one boot-mentioning requirement. -/
def bootReqConfig : EmulatorConfig :=
  { emptyConfig with requirements := [bootTimeReq] }

/-- A capability used by the feature-generation witnesses. -/
def wifiCap : ParsedCapability :=
  { id := "CAP_WIFI"
    name := "WiFi"
    category := "wifi"
    description := "Wireless connectivity" }

/-- A requirement no capability test links: its description does not
mention the capability name and it cites no capability id. -/
def secReq : ParsedRequirement :=
  { id := "REQ_SEC_1"
    title := "Secure storage"
    description := "The device must provide secure storage"
    category := "security"
    severity := TestSeverity.HIGH }

/-- Outcome list exercising the coverage map: boot outcomes with statuses
`passed`, `error` and `skipped`, and one failed network outcome. -/
def coverageResults : List TestResult :=
  [ ⟨"BOOT_COLD_001", "Cold Boot", "boot", "passed", 1⟩
  , ⟨"BOOT_WARM_001", "Warm Boot", "boot", "error", 1⟩
  , ⟨"BOOT_TIME_001", "Boot Timing", "boot", "skipped", 1⟩
  , ⟨"NET_001", "Ping", "network", "failed", 1⟩ ]

/-! ## Supporting lemmas for the hardware-spec merge -/

/-- Rewriting an existing key's entries leaves every other key's lookup
unchanged. -/
theorem lookup_map_update_ne (m : List (String × String)) (k v key : String)
    (h : key ≠ k) :
    List.lookup key (m.map (fun p => if p.1 == k then (k, v) else p)) = List.lookup key m := by
  have hb : (key == k) = false := beq_eq_false_iff_ne.mpr h
  induction m with
  | nil => rfl
  | cons p rest ih =>
    obtain ⟨pk, pv⟩ := p
    by_cases hp : pk = k
    · subst hp
      simp [List.lookup_cons, hb, h]
      simpa using ih
    · by_cases hkey : key = pk
      · subst hkey
        simp [List.lookup_cons, hp]
      · simp [List.lookup_cons, hp, hkey, beq_eq_false_iff_ne.mpr hkey]
        simpa using ih

/-- Rewriting an existing key's entries makes that key look up the new
value. -/
theorem lookup_map_update_self (m : List (String × String)) (k v : String)
    (h : ∃ p ∈ m, p.1 = k) :
    List.lookup k (m.map (fun p => if p.1 == k then (k, v) else p)) = some v := by
  induction m with
  | nil => simp at h
  | cons p rest ih =>
    obtain ⟨pk, pv⟩ := p
    by_cases hp : pk = k
    · subst hp
      simp [List.lookup_cons]
    · have h' : ∃ p ∈ rest, p.1 = k := by
        obtain ⟨q, hq, hqk⟩ := h
        rcases List.mem_cons.mp hq with hq1 | hq2
        · exact absurd (by rw [hq1] at hqk; exact hqk) hp
        · exact ⟨q, hq2, hqk⟩
      have hk : k ≠ pk := fun hh => hp hh.symm
      simp [List.lookup_cons, hp, hk, beq_eq_false_iff_ne.mpr hk]
      simpa using ih h'

/-- Appending a fresh key's entry leaves every other key's lookup
unchanged. -/
theorem lookup_append_single_ne (m : List (String × String)) (k v key : String)
    (h : key ≠ k) :
    List.lookup key (m ++ [(k, v)]) = List.lookup key m := by
  rw [List.lookup_append]
  have : List.lookup key [(k, v)] = none := by
    simp [List.lookup_cons, beq_eq_false_iff_ne.mpr h]
  rw [this, Option.or_none]

/-- Appending an entry for a key absent from the dict makes that key look
up the appended value. -/
theorem lookup_append_single_self (m : List (String × String)) (k v : String)
    (h : ∀ p ∈ m, p.1 ≠ k) :
    List.lookup k (m ++ [(k, v)]) = some v := by
  rw [List.lookup_append]
  have hnone : List.lookup k m = none := by
    rw [List.lookup_eq_none_iff]
    intro p hp
    simp only [bne_iff_ne, ne_eq]
    intro hkp
    exact h p hp (by rw [← hkp])
  rw [hnone, Option.none_or]
  simp [List.lookup_cons]

/-- Dict assignment: the assigned key looks up the new value, every other
key is untouched. -/
theorem lookup_dictSet (m : List (String × String)) (k v key : String) :
    List.lookup key (dictSet m k v) = if key = k then some v else List.lookup key m := by
  unfold dictSet
  by_cases hmem : ∃ p ∈ m, p.1 = k
  · have hany : m.any (fun p => p.1 == k) = true := by
      rw [List.any_eq_true]
      obtain ⟨p, hp, hpk⟩ := hmem
      exact ⟨p, hp, beq_iff_eq.mpr hpk⟩
    rw [if_pos hany]
    by_cases hkey : key = k
    · subst hkey
      rw [if_pos rfl, lookup_map_update_self m key v hmem]
    · rw [if_neg hkey, lookup_map_update_ne m k v key hkey]
  · have hall : ∀ p ∈ m, p.1 ≠ k := by
      intro p hp hpk
      exact hmem ⟨p, hp, hpk⟩
    have hany : m.any (fun p => p.1 == k) = false := by
      rw [List.any_eq_false]
      intro p hp
      simp only [beq_iff_eq]
      exact hall p hp
    rw [if_neg (by simp [hany])]
    by_cases hkey : key = k
    · subst hkey
      rw [if_pos rfl, lookup_append_single_self m key v hall]
    · rw [if_neg hkey, lookup_append_single_ne m k v key hkey]

/-- Folding hardware-spec items over a dict: each key ends at its latest
concrete value among the items, and at its prior value when no item is
concrete for it. -/
theorem lookup_foldl_applyHWItem (kvs m : List (String × String)) (key : String) :
    List.lookup key (kvs.foldl applyHWItem m)
      = (lastConcreteIn kvs key).or (List.lookup key m) := by
  induction kvs using List.reverseRecOn with
  | nil => simp [lastConcreteIn]
  | append_singleton kvs kv ih =>
    rw [List.foldl_append, List.foldl_cons, List.foldl_nil]
    have hrev : lastConcreteIn (kvs ++ [kv]) key
        = (List.find? (fun q => q.1 == key && isConcreteVal q.2) (kv :: kvs.reverse)).map
            (fun q => q.2) := by
      simp [lastConcreteIn, List.reverse_append]
    by_cases hc : isConcreteVal kv.2 = true
    · rw [show applyHWItem (kvs.foldl applyHWItem m) kv
          = dictSet (kvs.foldl applyHWItem m) kv.1 kv.2 from by
        unfold applyHWItem
        rw [if_pos hc]]
      rw [lookup_dictSet]
      by_cases hk : key = kv.1
      · rw [if_pos hk, hrev]
        have hpred : (fun q => q.1 == key && isConcreteVal q.2) kv = true := by
          simp [hk.symm, hc]
        rw [@List.find?_cons_of_pos _ (fun q => q.1 == key && isConcreteVal q.2) kv
          kvs.reverse hpred]
        simp
      · rw [if_neg hk, ih, hrev]
        have hpred : (fun q => q.1 == key && isConcreteVal q.2) kv = false := by
          simp only [Bool.and_eq_false_iff]
          left
          exact beq_eq_false_iff_ne.mpr (fun hh => hk hh.symm)
        rw [@List.find?_cons_of_neg _ (fun q => q.1 == key && isConcreteVal q.2) kv
          kvs.reverse (by simp [hpred])]
        rfl
    · rw [show applyHWItem (kvs.foldl applyHWItem m) kv = kvs.foldl applyHWItem m from by
        unfold applyHWItem
        rw [if_neg hc]]
      rw [ih, hrev]
      have hpred : (fun q => q.1 == key && isConcreteVal q.2) kv = false := by
        simp only [Bool.and_eq_false_iff]
        right
        simpa using hc
      rw [@List.find?_cons_of_neg _ (fun q => q.1 == key && isConcreteVal q.2) kv
        kvs.reverse (by simp [hpred])]
      rfl

/-- The merged hardware spec is the fold of all documents' items, in
document order, over the empty dict. -/
theorem merge_hw_eq_foldl (docs : List ParsedDoc) :
    (merge_parsed_docs docs).hardware_spec
      = ((docs.map (fun d => d.hardware_spec)).flatten).foldl applyHWItem [] := by
  suffices h : ∀ init : ParsedDoc, (docs.foldl mergeDocStep init).hardware_spec
      = ((docs.map (fun d => d.hardware_spec)).flatten).foldl applyHWItem init.hardware_spec from
    h ⟨[], [], []⟩
  induction docs with
  | nil =>
    intro init
    rfl
  | cons d ds ih =>
    intro init
    rw [List.foldl_cons, ih (mergeDocStep init d), List.map_cons, List.flatten_cons,
      List.foldl_append]
    rfl

/-! ## Supporting lemmas for the coverage map -/

/-- A predicate's count splits into the counts of its conjunctions with a
second predicate and with its negation. -/
theorem countP_and_split (l : List TestResult) (a b : TestResult → Bool) :
    l.countP (fun x => a x && b x) + l.countP (fun x => a x && !(b x)) = l.countP a := by
  induction l with
  | nil => rfl
  | cons x xs ih =>
    simp only [List.countP_cons]
    cases ha : a x <;> cases hb : b x <;> simp [ha, hb] <;> omega

/-- No outcome of `rs` has category `cat`: all three per-category counts
vanish. -/
theorem countP_zero_of_cat_absent (rs : List TestResult) (cat : String)
    (h : rs.any (fun x => x.category == cat) = false) :
    rs.countP (fun x => x.category == cat) = 0
    ∧ rs.countP (fun x => x.category == cat && x.status == "passed") = 0
    ∧ rs.countP (fun x => x.category == cat && !(x.status == "passed")) = 0 := by
  rw [List.any_eq_false] at h
  refine ⟨?_, ?_, ?_⟩ <;> rw [List.countP_eq_zero] <;> intro a ha <;> simp [h a ha]

/-- Bumping an entry leaves its key unchanged. -/
theorem bumpEntry_fst (cat status : String) (p : String × CatCounts) :
    (bumpEntry cat status p).1 = p.1 := by
  unfold bumpEntry
  by_cases h : (p.1 == cat) = true <;> simp [h]

/-- Bumping entries leaves the key set unchanged. -/
theorem any_map_bumpEntry (m : List (String × CatCounts)) (cat status cat2 : String) :
    (m.map (bumpEntry cat status)).any (fun p => p.1 == cat2)
      = m.any (fun p => p.1 == cat2) := by
  induction m with
  | nil => rfl
  | cons p rest ih => simp [List.any_cons, bumpEntry_fst, ih]

/-- `updateCats` preserves the key set except for adding the outcome's
category. -/
theorem any_updateCats (m : List (String × CatCounts)) (r : TestResult) (cat : String) :
    (updateCats m r).any (fun p => p.1 == cat)
      = (m.any (fun p => p.1 == cat) || (r.category == cat)) := by
  unfold updateCats
  by_cases hmem : m.any (fun p => p.1 == r.category) = true
  · rw [if_pos hmem, any_map_bumpEntry]
    by_cases hrc : (r.category == cat) = true
    · have hcat : r.category = cat := eq_of_beq hrc
      subst hcat
      simp [hmem]
    · have hrc' : (r.category == cat) = false := by simpa using hrc
      simp [hrc']
  · rw [if_neg (by simpa using hmem), any_map_bumpEntry]
    simp [List.any_append]

/-- Invariant of the per-category counting loop: after folding the whole
outcome list, the key set is exactly the categories occurring in the list,
and each entry's counters are the per-category outcome counts: `total` all
outcomes of the category, `passed` those with status `passed`, `failed`
all the others. -/
theorem updateCats_fold_spec (results : List TestResult) :
    (∀ cat : String, ((results.foldl updateCats []).any (fun p => p.1 == cat))
        = results.any (fun x => x.category == cat))
    ∧ (∀ p ∈ results.foldl updateCats [],
        p.2.total = results.countP (fun x => x.category == p.1)
        ∧ p.2.passed = results.countP (fun x => x.category == p.1 && x.status == "passed")
        ∧ p.2.failed = results.countP (fun x => x.category == p.1 && !(x.status == "passed"))) := by
  induction results using List.reverseRecOn with
  | nil => exact ⟨by simp, by simp⟩
  | append_singleton rs r ih =>
    obtain ⟨ih1, ih2⟩ := ih
    have hfold : (rs ++ [r]).foldl updateCats [] = updateCats (rs.foldl updateCats []) r := by
      rw [List.foldl_append, List.foldl_cons, List.foldl_nil]
    constructor
    · intro cat
      rw [hfold, any_updateCats, ih1]
      simp [List.any_append]
    · intro p hp
      rw [hfold, updateCats] at hp
      by_cases hmem : ((rs.foldl updateCats []).any (fun x => x.1 == r.category)) = true
      · rw [if_pos hmem, List.mem_map] at hp
        obtain ⟨q, hq, hpq⟩ := hp
        subst hpq
        obtain ⟨ht, hpass, hfail⟩ := ih2 q hq
        by_cases hqc : (q.1 == r.category) = true
        · have hq1 : q.1 = r.category := eq_of_beq hqc
          have hbe : bumpEntry r.category r.status q = (q.1, bumpCounts q.2 r.status) := by
            simp [bumpEntry, hqc]
          rw [hbe]
          refine ⟨?_, ?_, ?_⟩ <;>
            simp [bumpCounts, List.countP_append, List.countP_cons, hq1, ht, hpass, hfail]
        · have hqc' : (q.1 == r.category) = false := by simpa using hqc
          have hbe : bumpEntry r.category r.status q = q := by
            simp [bumpEntry, hqc']
          rw [hbe]
          have hrq : (r.category == q.1) = false := by
            rw [beq_eq_false_iff_ne] at hqc' ⊢
            exact fun hh => hqc' hh.symm
          refine ⟨?_, ?_, ?_⟩ <;>
            simp [List.countP_append, List.countP_cons, hrq, ht, hpass, hfail]
      · rw [if_neg hmem, List.mem_map] at hp
        obtain ⟨q, hq, hpq⟩ := hp
        subst hpq
        rcases List.mem_append.mp hq with hq1 | hq2
        · obtain ⟨ht, hpass, hfail⟩ := ih2 q hq1
          have hqc' : (q.1 == r.category) = false := by
            by_contra hcon
            have hcon' : (q.1 == r.category) = true := by simpa using hcon
            exact hmem (List.any_eq_true.mpr ⟨q, hq1, hcon'⟩)
          have hbe : bumpEntry r.category r.status q = q := by
            simp [bumpEntry, hqc']
          rw [hbe]
          have hrq : (r.category == q.1) = false := by
            rw [beq_eq_false_iff_ne] at hqc' ⊢
            exact fun hh => hqc' hh.symm
          refine ⟨?_, ?_, ?_⟩ <;>
            simp [List.countP_append, List.countP_cons, hrq, ht, hpass, hfail]
        · have hq' : q = (r.category, ⟨0, 0, 0⟩) := by simpa using hq2
          subst hq'
          have hbe : bumpEntry r.category r.status (r.category, (⟨0, 0, 0⟩ : CatCounts))
              = (r.category, bumpCounts ⟨0, 0, 0⟩ r.status) := by
            simp [bumpEntry]
          rw [hbe]
          have habs0 : ((rs.foldl updateCats []).any (fun x => x.1 == r.category)) = false :=
            Bool.eq_false_iff.mpr hmem
          rw [ih1 r.category] at habs0
          obtain ⟨hz1, hz2, hz3⟩ := countP_zero_of_cat_absent rs r.category habs0
          refine ⟨?_, ?_, ?_⟩ <;>
            simp [bumpCounts, List.countP_append, List.countP_cons, hz1, hz2, hz3]

/-! ## Supporting lemmas for feature-test generation -/

/-- The requirement-test id scheme is injective. -/
theorem req_test_id_inj (a b : String) (h : "REQ_" ++ a ++ "_TEST" = "REQ_" ++ b ++ "_TEST") :
    a = b := by
  have hd := congrArg String.data h
  simp only [String.data_append] at hd
  rw [List.append_assoc, List.append_assoc] at hd
  have h1 := List.append_cancel_left hd
  exact String.ext (List.append_cancel_right h1)

/-- Capability-test ids and requirement-test ids never collide: the former
end in `1`, the latter in `T`. -/
theorem func_id_ne_req_test_id (a b : String) :
    a ++ "_FUNC_001" ≠ "REQ_" ++ b ++ "_TEST" := by
  intro h
  have hd := congrArg String.data h
  simp only [String.data_append] at hd
  have h1 := congrArg List.getLast? hd
  rw [List.getLast?_append_of_ne_nil _ (by decide),
    List.getLast?_append_of_ne_nil _ (by decide)] at h1
  exact absurd h1 (by decide)

/-- The requirement loop never adds a test carrying the requirement-test
id of an id that none of the looped requirements has. -/
theorem foldl_addReq_filter_stable (rs : List ParsedRequirement)
    (acc : List GeneratedTestCase) (rid : String) (h : ∀ r ∈ rs, r.id ≠ rid) :
    (rs.foldl addRequirementTest acc).filter (fun t => t.id == reqTestIdOf rid)
      = acc.filter (fun t => t.id == reqTestIdOf rid) := by
  induction rs generalizing acc with
  | nil => rfl
  | cons r rest ih =>
    rw [List.foldl_cons, ih _ (fun x hx => h x (List.mem_cons_of_mem r hx))]
    unfold addRequirementTest
    by_cases hany : acc.any (fun t => t.linked_requirements.contains r.id) = true
    · rw [if_pos hany]
    · rw [if_neg hany, List.filter_append]
      have hne : ((generate_requirement_test r).id == reqTestIdOf rid) = false :=
        beq_eq_false_iff_ne.mpr
          (fun hc => h r (List.mem_cons_self r rest) (req_test_id_inj r.id rid hc))
      have hnil : [generate_requirement_test r].filter (fun t => t.id == reqTestIdOf rid)
          = [] := by
        simp [List.filter, hne]
      rw [hnil, List.append_nil]

/-- The requirement loop, started from an accumulator that neither links
the requirement's id nor holds its requirement-test id, emits exactly one
test with that id — the requirement's own test — provided the looped
requirement ids are distinct. -/
theorem foldl_addReq_adds_once (rs : List ParsedRequirement)
    (acc : List GeneratedTestCase) (req : ParsedRequirement)
    (hmem : req ∈ rs)
    (hnd : (rs.map (fun r => r.id)).Nodup)
    (hacc1 : ∀ t ∈ acc, req.id ∉ t.linked_requirements)
    (hacc2 : ∀ t ∈ acc, t.id ≠ reqTestIdOf req.id) :
    (rs.foldl addRequirementTest acc).filter (fun t => t.id == reqTestIdOf req.id)
      = [generate_requirement_test req] := by
  induction rs generalizing acc with
  | nil => exact absurd hmem (List.not_mem_nil req)
  | cons r rest ih =>
    rw [List.foldl_cons]
    rw [List.map_cons] at hnd
    rcases List.mem_cons.mp hmem with heq | hmem'
    · subst heq
      have hany : acc.any (fun t => t.linked_requirements.contains req.id) = false := by
        simpa [List.any_eq_false] using hacc1
      have hnotany : ¬ ((acc.any fun t => t.linked_requirements.contains req.id) = true) := by
        rw [hany]
        simp
      have hstep : addRequirementTest acc req = acc ++ [generate_requirement_test req] := by
        rw [addRequirementTest, if_neg hnotany]
      rw [hstep]
      have hrest : ∀ x ∈ rest, x.id ≠ req.id := by
        intro x hx hcontra
        exact (List.nodup_cons.mp hnd).1 (List.mem_map.mpr ⟨x, hx, hcontra⟩)
      rw [foldl_addReq_filter_stable rest _ req.id hrest, List.filter_append]
      have h1 : acc.filter (fun t => t.id == reqTestIdOf req.id) = [] := by
        rw [List.filter_eq_nil_iff]
        intro t ht
        simp [hacc2 t ht]
      have hbeq : ((generate_requirement_test req).id == reqTestIdOf req.id) = true :=
        beq_iff_eq.mpr rfl
      have h2 : [generate_requirement_test req].filter (fun t => t.id == reqTestIdOf req.id)
          = [generate_requirement_test req] := by
        simp [List.filter, hbeq]
      rw [h1, h2, List.nil_append]
    · have hnd' := List.nodup_cons.mp hnd
      have hrne : r.id ≠ req.id := by
        intro hcontra
        exact hnd'.1 (List.mem_map.mpr ⟨req, hmem', hcontra.symm⟩)
      apply ih _ hmem' hnd'.2
      · intro t ht
        unfold addRequirementTest at ht
        by_cases hany : acc.any (fun t => t.linked_requirements.contains r.id) = true
        · rw [if_pos hany] at ht
          exact hacc1 t ht
        · rw [if_neg hany] at ht
          rcases List.mem_append.mp ht with hh | hh
          · exact hacc1 t hh
          · have ht' : t = generate_requirement_test r := by simpa using hh
            subst ht'
            simp [generate_requirement_test]
            exact fun hc => hrne hc.symm
      · intro t ht
        unfold addRequirementTest at ht
        by_cases hany : acc.any (fun t => t.linked_requirements.contains r.id) = true
        · rw [if_pos hany] at ht
          exact hacc2 t ht
        · rw [if_neg hany] at ht
          rcases List.mem_append.mp ht with hh | hh
          · exact hacc2 t hh
          · have ht' : t = generate_requirement_test r := by simpa using hh
            subst ht'
            exact fun hc => hrne (req_test_id_inj r.id req.id hc)

/-- Every capability-generated test has a capability-test id. -/
theorem capabilityTestsAll_ids (caps : List ParsedCapability)
    (reqs : List ParsedRequirement) :
    ∀ t ∈ capabilityTestsAll caps reqs, ∃ c ∈ caps, t.id = c.id ++ "_FUNC_001" := by
  intro t ht
  unfold capabilityTestsAll at ht
  rw [List.mem_flatten] at ht
  obtain ⟨l, hl, htl⟩ := ht
  rw [List.mem_map] at hl
  obtain ⟨c, hc, hlc⟩ := hl
  subst hlc
  have : t = (generate_capability_tests c reqs).head (by simp [generate_capability_tests]) := by
    simpa [generate_capability_tests] using htl
  exact ⟨c, hc, by rw [this]; rfl⟩

/-! ## Claims -/

/-- Claim C1: the verdict of a generated report is a total, exhaustive
function of the summary's pass rate with exact boundaries: `pass_rate ≥ 95`
yields `PASS`, `80 ≤ pass_rate < 95` yields `CONDITIONAL`, `pass_rate < 80`
yields `FAIL`; in particular rates `95.0`, `94.9`, `80.0` and `79.9` yield
`PASS`, `CONDITIONAL`, `CONDITIONAL` and `FAIL` respectively. -/
theorem claim_C1_verdict_boundaries (env : ReportEnv)
    (emulator_id board_name firmware_info : String) (results : List TestResult) :
    ((generate_report env emulator_id board_name firmware_info results).verdict
        = verdictOf (summarize results).pass_rate)
    ∧ ((summarize results).pass_rate ≥ 95 → verdictOf (summarize results).pass_rate = "PASS")
    ∧ (80 ≤ (summarize results).pass_rate ∧ (summarize results).pass_rate < 95 →
        verdictOf (summarize results).pass_rate = "CONDITIONAL")
    ∧ ((summarize results).pass_rate < 80 → verdictOf (summarize results).pass_rate = "FAIL")
    ∧ verdictOf 95 = "PASS"
    ∧ verdictOf (949 / 10) = "CONDITIONAL"
    ∧ verdictOf 80 = "CONDITIONAL"
    ∧ verdictOf (799 / 10) = "FAIL" := by
  refine ⟨rfl, ?_, ?_, ?_, by norm_num [verdictOf], by norm_num [verdictOf],
    by norm_num [verdictOf], by norm_num [verdictOf]⟩
  · intro h
    unfold verdictOf
    rw [if_pos h]
  · rintro ⟨h1, h2⟩
    unfold verdictOf
    rw [if_neg (by linarith), if_pos (by linarith)]
  · intro h
    unfold verdictOf
    rw [if_neg (by linarith), if_neg (by linarith)]

/-- Claim C6: for every outcome list the report summary satisfies
`pass_rate = round(passed / total * 100, 1)` where `passed` counts the
outcomes with status `passed` and `total` is the list length, and
`pass_rate = 0` when `total = 0`. -/
theorem claim_C6_pass_rate_formula (results : List TestResult) :
    ((summarize results).total = results.length)
    ∧ ((summarize results).passed = results.countP (fun r => r.status == "passed"))
    ∧ (results.length ≠ 0 →
        (summarize results).pass_rate
          = pyRound1 ((results.countP (fun r => r.status == "passed") : ℚ)
              / (results.length : ℚ) * 100))
    ∧ (results.length = 0 → (summarize results).pass_rate = 0) := by
  refine ⟨rfl, rfl, ?_, ?_⟩
  · intro h
    simp [summarize, Nat.pos_of_ne_zero h]
  · intro h
    simp only [summarize, h]
    norm_num [pyRound1, roundHalfEven]

/-- Claim C9: report synthesis is deterministic in the outcome list: for
the same outcomes (and the same config identity and firmware descriptor),
any two calls — whatever report id and timestamp the environment draws —
yield identical summary counts, identical verdict and identical
per-category coverage; none of these read mutable state. -/
theorem claim_C9_report_deterministic (env1 env2 : ReportEnv)
    (emulator_id board_name firmware_info : String) (results : List TestResult) :
    ((generate_report env1 emulator_id board_name firmware_info results).summary
        = (generate_report env2 emulator_id board_name firmware_info results).summary)
    ∧ ((generate_report env1 emulator_id board_name firmware_info results).verdict
        = (generate_report env2 emulator_id board_name firmware_info results).verdict)
    ∧ ((generate_report env1 emulator_id board_name firmware_info results).feature_coverage
        = (generate_report env2 emulator_id board_name firmware_info results).feature_coverage) :=
  ⟨rfl, rfl, rfl⟩

/-- Claim C5: a config with no capabilities and no requirements yields
exactly the six fixed boot test cases (cold boot, warm boot, boot timing,
watchdog, bootloader integrity, recovery mode) and no feature test cases
from the pipeline's generation phase. -/
theorem claim_C5_empty_config_tests (config : EmulatorConfig)
    (hcaps : config.capabilities = []) (hreqs : config.requirements = []) :
    ((workflowBootTests config).map (fun t => t.id)
        = ["BOOT_COLD_001", "BOOT_WARM_001", "BOOT_TIME_001", "BOOT_WDT_001",
           "BOOT_INTEGRITY_001", "BOOT_RECOVERY_001"])
    ∧ (workflowBootTests config).length = 6
    ∧ workflowFeatureTests config = [] := by
  refine ⟨rfl, rfl, ?_⟩
  simp [workflowFeatureTests, generate_feature_tests, featureTestsFrom, capabilityTestsAll,
    hcaps, hreqs]

/-- Witness for claim C5 at a concrete empty config. -/
theorem claim_C5_witness :
    ((workflowBootTests emptyConfig).map (fun t => t.id)
        = ["BOOT_COLD_001", "BOOT_WARM_001", "BOOT_TIME_001", "BOOT_WDT_001",
           "BOOT_INTEGRITY_001", "BOOT_RECOVERY_001"])
    ∧ (workflowBootTests emptyConfig).length = 6
    ∧ workflowFeatureTests emptyConfig = [] :=
  claim_C5_empty_config_tests emptyConfig rfl rfl

/-- Claim C4: for every capability, feature-test generation emits exactly
one basic-functionality test case with id `<capability_id>_FUNC_001`, whose
`linked_capabilities` contains the originating capability's id and whose
`linked_requirements` holds at most 3 ids, drawn exactly from the
requirements whose description contains the capability's name
(lower-cased, as the source compares) or whose `linked_capabilities` cites
the capability's id. -/
theorem claim_C4_capability_test (cap : ParsedCapability)
    (requirements : List ParsedRequirement) :
    ∃ t : GeneratedTestCase,
      generate_capability_tests cap requirements = [t]
      ∧ t.id = cap.id ++ "_FUNC_001"
      ∧ cap.id ∈ t.linked_capabilities
      ∧ t.linked_requirements
          = ((requirements.filter (relevantTo cap)).take 3).map (fun r => r.id)
      ∧ t.linked_requirements.length ≤ 3
      ∧ (∀ rid ∈ t.linked_requirements,
          ∃ r, r ∈ requirements ∧ r.id = rid ∧ relevantTo cap r = true) := by
  refine ⟨_, rfl, rfl, by simp, rfl, ?_, ?_⟩
  · simp only [List.length_map, List.length_take]
    omega
  · intro rid hrid
    simp only [List.mem_map] at hrid
    obtain ⟨r, hr, hid⟩ := hrid
    have hr' := List.mem_of_mem_take hr
    rw [List.mem_filter] at hr'
    exact ⟨r, hr'.1, hid, hr'.2⟩

/-- Claim C8: in real execution mode every submitted test yields exactly
one recorded outcome, in submission order; a completed script run maps exit
code 0 to `passed` and any other exit code to `failed`, while a caught
transfer/launch exception yields a single `error` outcome for that test
only — its message recorded as output and evidence — and the remaining
tests still execute. -/
theorem claim_C8_real_mode_outcomes (behavior : GeneratedTestCase → ContainerRun)
    (container_id firmware_checksum executed_at : String)
    (tests : List GeneratedTestCase) :
    ((container_execute_tests behavior container_id firmware_checksum executed_at tests).length
        = tests.length)
    ∧ (∀ i : Nat, ∀ t : GeneratedTestCase, tests[i]? = some t →
        ∃ r, (container_execute_tests behavior container_id firmware_checksum executed_at
                tests)[i]? = some r
          ∧ r.test_id = t.id
          ∧ (∀ code out errout, behavior t = ContainerRun.completes code out errout →
              r.status = (if code = 0 then "passed" else "failed") ∧ r.exit_code = code)
          ∧ (∀ msg, behavior t = ContainerRun.raises msg →
              r.status = "error" ∧ r.output = msg
                ∧ r.evidence = ContainerEvidence.error msg)) := by
  constructor
  · exact List.length_map tests _
  · intro i t ht
    refine ⟨execute_in_container behavior container_id firmware_checksum executed_at t,
      ?_, ?_, ?_, ?_⟩
    · rw [container_execute_tests, List.getElem?_map, ht, Option.map_some']
    · unfold execute_in_container
      cases behavior t <;> rfl
    · intro code out errout hb
      unfold execute_in_container
      rw [hb]
      exact ⟨rfl, rfl⟩
    · intro msg hb
      unfold execute_in_container
      rw [hb]
      exact ⟨rfl, rfl, rfl⟩

/-- Claim C3 (evaluated at the failing input): the pipeline generates boot
tests for a config holding a boot-mentioning requirement, yet every such
boot test has an empty `linked_requirements` list, because
`run_complete_workflow` never passes the requirements on to
`generate_boot_tests`; the generator, handed the same requirements
directly, links the boot-mentioning requirement to every boot test. -/
theorem claim_C3_pipeline_boot_links_empty :
    (bootReqConfig.requirements.filter mentionsBoot = [bootTimeReq])
    ∧ (∀ t ∈ workflowBootTests bootReqConfig, t.linked_requirements = [])
    ∧ (∀ t ∈ generate_boot_tests bootReqConfig (some bootReqConfig.requirements),
        t.linked_requirements = ["REQ_BOOT_1"]) := by
  refine ⟨by decide, by decide, by decide⟩

/-- Claim C2 counterexample: with two documents giving distinct concrete
values for the same field, the merged hardware spec holds the LATER value,
not the earliest concrete one the claim promises. -/
theorem claim_C2_counterexample :
    List.lookup "cpu_type" (merge_parsed_docs mergeCounterDocs).hardware_spec
        = some "cortex-a53"
    ∧ firstConcreteValue mergeCounterDocs "cpu_type" = some "cortex-a7"
    ∧ ¬ (List.lookup "cpu_type" (merge_parsed_docs mergeCounterDocs).hardware_spec
          = firstConcreteValue mergeCounterDocs "cpu_type") := by
  refine ⟨by decide, by decide, by decide⟩

/-- Claim C2 as amended: merging writes a field only when the incoming
value is concrete (truthy and not `'unknown'`), so a later concrete value
always overrides an earlier one and a later placeholder never does: for
every field, the LATEST concrete value among the documents is the one
present in the merged hardware spec (and a field with no concrete value is
absent). -/
theorem claim_C2_merge_latest_concrete (docs : List ParsedDoc) (key : String) :
    List.lookup key (merge_parsed_docs docs).hardware_spec = lastConcreteValue docs key := by
  rw [merge_hw_eq_foldl, lookup_foldl_applyHWItem]
  simp [lastConcreteValue]

/-- Claim C10: every entry of the per-category coverage map satisfies
`passed + failed = total`; `total` counts the outcomes of the category,
`passed` those with status `passed`, and `failed` all remaining outcomes —
`error` and `skipped` ones included — and
`coverage = round(passed / total * 100, 1)`. -/
theorem claim_C10_coverage_invariant (results : List TestResult) (cat : String)
    (c : CatCounts) (cov : ℚ)
    (hmem : (cat, c, cov) ∈ (calculate_feature_coverage results).by_category) :
    c.passed + c.failed = c.total
    ∧ c.total = results.countP (fun x => x.category == cat)
    ∧ c.passed = results.countP (fun x => x.category == cat && x.status == "passed")
    ∧ c.failed = results.countP (fun x => x.category == cat && !(x.status == "passed"))
    ∧ 0 < c.total
    ∧ cov = pyRound1 ((c.passed : ℚ) / (c.total : ℚ) * 100) := by
  obtain ⟨spec1, spec2⟩ := updateCats_fold_spec results
  unfold calculate_feature_coverage at hmem
  simp only [List.mem_map] at hmem
  obtain ⟨p, hp, heq⟩ := hmem
  have h1 : p.1 = cat := congrArg (fun t => t.1) heq
  have h2 : p.2 = c := congrArg (fun t => t.2.1) heq
  have h3 : coverageOf p.2 = cov := congrArg (fun t => t.2.2) heq
  subst h1
  subst h2
  subst h3
  obtain ⟨ht, hpass, hfail⟩ := spec2 p hp
  have hpos : 0 < p.2.total := by
    rw [ht]
    rw [List.countP_pos_iff]
    have hkey : ((results.foldl updateCats []).any (fun x => x.1 == p.1)) = true :=
      List.any_eq_true.mpr ⟨p, hp, by simp⟩
    rw [spec1 p.1] at hkey
    obtain ⟨x, hx, hxc⟩ := List.any_eq_true.mp hkey
    exact ⟨x, hx, hxc⟩
  refine ⟨?_, ht, hpass, hfail, hpos, ?_⟩
  · rw [ht, hpass, hfail, countP_and_split]
  · rw [coverageOf, if_pos hpos]

/-- Witness for claim C10 at a concrete outcome list: the `boot` category
collects one passed, one error and one skipped outcome, so its counters
read total 3, passed 1, failed 2 and its coverage is `33.3`. -/
theorem claim_C10_witness :
    ((⟨3, 1, 2⟩ : CatCounts).passed + (⟨3, 1, 2⟩ : CatCounts).failed
        = (⟨3, 1, 2⟩ : CatCounts).total)
    ∧ (⟨3, 1, 2⟩ : CatCounts).total
        = coverageResults.countP (fun x => x.category == "boot")
    ∧ (⟨3, 1, 2⟩ : CatCounts).passed
        = coverageResults.countP (fun x => x.category == "boot" && x.status == "passed")
    ∧ (⟨3, 1, 2⟩ : CatCounts).failed
        = coverageResults.countP (fun x => x.category == "boot" && !(x.status == "passed"))
    ∧ 0 < (⟨3, 1, 2⟩ : CatCounts).total
    ∧ (333 / 10 : ℚ)
        = pyRound1 (((⟨3, 1, 2⟩ : CatCounts).passed : ℚ)
            / ((⟨3, 1, 2⟩ : CatCounts).total : ℚ) * 100) :=
  claim_C10_coverage_invariant coverageResults "boot" ⟨3, 1, 2⟩ (333 / 10)
    (by
      have hcats : coverageResults.foldl updateCats []
          = [("boot", ⟨3, 1, 2⟩), ("network", ⟨1, 0, 1⟩)] := by decide
      have hcov : coverageOf ⟨3, 1, 2⟩ = 333 / 10 := by
        rw [coverageOf, if_pos (by decide), pyRound1, roundHalfEven]
        norm_num
      rw [calculate_feature_coverage]
      simp only [hcats, List.map_cons, List.map_nil, hcov]
      exact List.mem_cons_self _ _)

/-- Claim C7: every requirement whose id no capability-derived test links
(and whose id is not shared with another requirement) yields exactly one
additional test case with id `REQ_<requirement_id>_TEST`; its verification
steps are derived from the requirement's first 3 acceptance criteria, and
with zero acceptance criteria its single expected result is
`Requirement satisfied`. -/
theorem claim_C7_requirement_tests (caps : List ParsedCapability)
    (reqs : List ParsedRequirement) (req : ParsedRequirement)
    (hmem : req ∈ reqs)
    (hnd : (reqs.map (fun r => r.id)).Nodup)
    (hnl : ∀ t ∈ capabilityTestsAll caps reqs, req.id ∉ t.linked_requirements) :
    ((featureTestsFrom caps reqs).filter (fun t => t.id == reqTestIdOf req.id)
        = [generate_requirement_test req])
    ∧ (generate_requirement_test req).id = reqTestIdOf req.id
    ∧ (generate_requirement_test req).steps
        = ("Execute test scenario", "Requirement met")
            :: (req.acceptance_criteria.take 3).map (fun crit => ("Verify: " ++ crit, "Pass"))
    ∧ (req.acceptance_criteria = [] →
        (generate_requirement_test req).expected_results = ["Requirement satisfied"]) := by
  refine ⟨?_, rfl, rfl, ?_⟩
  · rw [featureTestsFrom]
    apply foldl_addReq_adds_once reqs (capabilityTestsAll caps reqs) req hmem hnd hnl
    intro t ht
    obtain ⟨c, _, hcid⟩ := capabilityTestsAll_ids caps reqs t ht
    rw [hcid, reqTestIdOf]
    exact func_id_ne_req_test_id c.id req.id
  · intro h
    simp [generate_requirement_test, h]

/-- Witness for claim C7 at a concrete input: the lone requirement is not
linked by the WiFi capability's test, so it receives its own test case. -/
theorem claim_C7_witness :
    ((featureTestsFrom [wifiCap] [secReq]).filter
          (fun t => t.id == reqTestIdOf secReq.id)
        = [generate_requirement_test secReq])
    ∧ (generate_requirement_test secReq).id = reqTestIdOf secReq.id
    ∧ (generate_requirement_test secReq).steps
        = ("Execute test scenario", "Requirement met")
            :: (secReq.acceptance_criteria.take 3).map
                (fun crit => ("Verify: " ++ crit, "Pass"))
    ∧ (secReq.acceptance_criteria = [] →
        (generate_requirement_test secReq).expected_results = ["Requirement satisfied"]) :=
  claim_C7_requirement_tests [wifiCap] [secReq] secReq (by decide) (by decide) (by decide)

end Phoenix2
